import Mathlib

/-!
Shallow embedding of `prox.py`: a proxy that caches an upstream station
list and selects the station best matching a user's location and an
independent reference temperature, serving the result over `/api`.

Numeric values (coordinates, temperatures, distances) are embedded in a
linear ordered field; the instantiation at `ℝ` with the real trigonometric
functions (`realPrims` below) models the program, while the algorithms are
stated generically because they use the math functions only as opaque maps.
-/

/-- The math primitives the source imports (`from math import radians, sin,
cos, sqrt, atan2`), collected so the algorithms can be stated over any
linear ordered field and instantiated at `ℝ` with the real functions. -/
structure MathPrims (α : Type) where
  radians : α → α
  sin : α → α
  cos : α → α
  sqrt : α → α
  atan2 : α → α → α

/-- `calculate_distance` from prox.py: haversine distance in kilometres. -/
def calculate_distance {α : Type} [LinearOrderedField α] (M : MathPrims α)
    (lat1 lon1 lat2 lon2 : α) : α :=
  let earth_radius : α := 6371
  let d_lat := M.radians (lat2 - lat1)
  let d_lon := M.radians (lon2 - lon1)
  let a := M.sin (d_lat / 2) ^ 2 +
    M.cos (M.radians lat1) * M.cos (M.radians lat2) * M.sin (d_lon / 2) ^ 2
  let c := 2 * M.atan2 (M.sqrt a) (M.sqrt (1 - a))
  earth_radius * c

/-- A station record as read from the upstream JSON: every field that the
handler accesses with `.get(...)` is optional. -/
structure Station (α : Type) where
  long_name : Option String := none
  short_name : Option String := none
  latitude : Option α := none
  longitude : Option α := none
  temperature : Option α := none
  relative_humidity : Option α := none
  barometric_pressure : Option α := none
  updated_at : Option String := none
deriving DecidableEq

/-- One entry of the `candidates` list built by `find_best_matching_node`:
the node together with its computed distance and temperature deviation. -/
structure Candidate (α : Type) where
  node : Station α
  distance_km : α
  temp_diff : α
deriving DecidableEq

/-- The Open-Meteo `current` object as used by the handler: only the
`temperature_2m` key is ever read (with `.get`, hence optional). -/
structure OpenMeteo (α : Type) where
  temperature_2m : Option α
deriving DecidableEq

/-- Models Python `sorted(l, key=key)[0]` on a nonempty list: the first
element attaining the minimal key (Python sort is stable, so the head of
the sorted list is the first minimum in input order). -/
def minBy {β κ : Type} [LinearOrder κ] (key : β → κ) : List β → Option β
  | [] => none
  | b :: l =>
    match minBy key l with
    | none => some b
    | some m => some (if key m < key b then m else b)

/-- Strict lexicographic order on key pairs, as Python compares tuples. -/
def lexLtP {κ : Type} [LinearOrder κ] (p q : κ × κ) : Prop :=
  p.1 < q.1 ∨ (p.1 = q.1 ∧ p.2 < q.2)

/-- Reflexive lexicographic order on key pairs. -/
def lexLeP {κ : Type} [LinearOrder κ] (p q : κ × κ) : Prop :=
  p.1 < q.1 ∨ (p.1 = q.1 ∧ p.2 ≤ q.2)

instance {κ : Type} [LinearOrder κ] : DecidableRel (@lexLtP κ _) := fun p q =>
  inferInstanceAs (Decidable (p.1 < q.1 ∨ (p.1 = q.1 ∧ p.2 < q.2)))

/-- Models Python `sorted(l, key=lambda c: (k1 c, k2 c))[0]` on a nonempty
list: the first element attaining the lexicographically minimal key pair. -/
def minByLex {β κ : Type} [LinearOrder κ] (key : β → κ × κ) : List β → Option β
  | [] => none
  | b :: l =>
    match minByLex key l with
    | none => some b
    | some m => some (if lexLtP (key m) (key b) then m else b)

/-- One iteration of the candidate-building loop of
`find_best_matching_node`: `none` when the `continue` branch is taken
(some required field missing), the candidate record otherwise. -/
def candidateEntry {α : Type} [LinearOrderedField α] (M : MathPrims α)
    (user_lat user_lon : α) (ref_temp : Option α) (node : Station α) :
    Option (Candidate α) :=
  match node.latitude, node.longitude, node.temperature,
      node.relative_humidity, node.barometric_pressure with
  | some node_lat, some node_lon, some node_temp, some _, some _ =>
    some { node := node
           distance_km := calculate_distance M user_lat user_lon node_lat node_lon
           temp_diff := match ref_temp with
                        | some r => |node_temp - r|
                        | none => 0 }
  | _, _, _, _, _ => none

/-- The `candidates` list built by `find_best_matching_node`: stations with
all five required fields present, paired with their distance and temperature
deviation (`0.0` when no reference temperature is available). -/
def candidatesOf {α : Type} [LinearOrderedField α] (M : MathPrims α)
    (user_lat user_lon : α) (nodes : List (Station α)) (ref_temp : Option α) :
    List (Candidate α) :=
  nodes.filterMap (candidateEntry M user_lat user_lon ref_temp)

/-- `find_best_matching_node` from prox.py, returning the best candidate
record (the source returns the pair `(best['node'], best)`, which the
record subsumes): temperature-tolerance filter at 2 °C, nearest among the
matching candidates, lexicographic `(temp_diff, distance)` fallback. -/
def find_best_matching_node {α : Type} [LinearOrderedField α] (M : MathPrims α)
    (user_lat user_lon : α) (nodes : List (Station α))
    (openmeteo_current : OpenMeteo α) : Option (Candidate α) :=
  let ref_temp := openmeteo_current.temperature_2m
  let candidates := candidatesOf M user_lat user_lon nodes ref_temp
  if candidates.isEmpty then none
  else
    match ref_temp with
    | none => minBy (fun c => c.distance_km) candidates
    | some _ =>
      let matching := candidates.filter (fun c => decide (c.temp_diff ≤ 2))
      if matching.isEmpty then
        minByLex (fun c => (c.temp_diff, c.distance_km)) candidates
      else
        minBy (fun c => c.distance_km) matching

/-- Loop of `find_nearest_node`: `nearest`/`min_distance` accumulators, with
`float('inf')` embedded as `⊤` in `WithTop α`. -/
def find_nearest_go {α : Type} [LinearOrderedField α] (M : MathPrims α)
    (user_lat user_lon : α) :
    List (Station α) → Option (Station α) → WithTop α →
    Option (Station α) × WithTop α
  | [], nearest, min_distance => (nearest, min_distance)
  | node :: rest, nearest, min_distance =>
    match node.latitude, node.longitude with
    | some node_lat, some node_lon =>
      let distance := calculate_distance M user_lat user_lon node_lat node_lon
      if (distance : WithTop α) < min_distance then
        find_nearest_go M user_lat user_lon rest (some node) (distance : WithTop α)
      else
        find_nearest_go M user_lat user_lon rest nearest min_distance
    | _, _ => find_nearest_go M user_lat user_lon rest nearest min_distance

/-- `find_nearest_node` from prox.py: nearest node among those that merely
have coordinates (no weather fields required). -/
def find_nearest_node {α : Type} [LinearOrderedField α] (M : MathPrims α)
    (user_lat user_lon : α) (nodes : List (Station α)) :
    Option (Station α) × WithTop α :=
  find_nearest_go M user_lat user_lon nodes none ⊤

/-- The module-level cache dict of prox.py: `{'data': None, 'timestamp': 0}`.
The cached payload type is abstract (`β`, raw bytes in the source); the
clock is embedded as `ℚ`. -/
structure CacheState (β : Type) where
  data : Option β
  timestamp : ℚ
deriving DecidableEq

/-- The initial cache value of prox.py. -/
def initialCache {β : Type} : CacheState β := ⟨none, 0⟩

/-- `CACHE_DURATION = 300` seconds. -/
def CACHE_DURATION : ℚ := 300

/-- The `X-Cache-Status` values returned by `get_nodes_data`. -/
inductive CacheStatus where
  | HIT
  | MISS
deriving DecidableEq

/-- `get_nodes_data` from prox.py. The external fetch
(`urllib.request.urlopen('https://api.bolte.lol/nodes')`) is an external
collaborator, embedded as its outcome `fetch`; an exception there escapes
the function (`Except.error`) with the cache untouched. -/
def get_nodes_data {β : Type} (current_time : ℚ) (fetch : Except String β)
    (c : CacheState β) : Except String (β × CacheStatus) × CacheState β :=
  let cache_age := current_time - c.timestamp
  if h : c.data.isSome ∧ cache_age < CACHE_DURATION then
    (.ok (c.data.get h.1, .HIT), c)
  else
    match fetch with
    | .error e => (.error e, c)
    | .ok data => (.ok (data, .MISS), { data := some data, timestamp := current_time })

/-- Python `round(x)` (round half to even) for a value of a floor field. -/
def roundHalfEven {α : Type} [LinearOrderedField α] [FloorRing α] (x : α) : ℤ :=
  let f := ⌊x⌋
  let r := x - f
  if r < 1 / 2 then f
  else if 1 / 2 < r then f + 1
  else if 2 ∣ f then f else f + 1

/-- Python `round(x, 2)`: round to two decimal places, ties to even. -/
def round2 {α : Type} [LinearOrderedField α] [FloorRing α] (x : α) : α :=
  (roundHalfEven (x * 100) : α) / 100

/-- Python truthiness for an optional string: `None` and `''` are falsy. -/
def strTruthy : Option String → Option String
  | none => none
  | some s => if s = "" then none else some s

/-- The `node_name` expression of the payload:
`selected_node.get('long_name') or selected_node.get('short_name') or 'Unbekannt'`. -/
def nodeName {α : Type} (node : Station α) : String :=
  match strTruthy node.long_name with
  | some s => s
  | none =>
    match strTruthy node.short_name with
    | some s => s
    | none => "Unbekannt"

/-- The JSON object `handle_api` sends on success. -/
structure Payload (α : Type) where
  lat : α
  long : α
  node_name : String
  distance_km : α
  temperature : Option α
  relative_humidity : Option α
  barometric_pressure : Option α
  updated_at : Option String
  checked_with_openmeteo : Bool
  check_diff_temperature : Option α
deriving DecidableEq

/-- The response `handle_api` produces: a 200 JSON payload (with its
`X-Cache-Status` header) or a JSON error body with an HTTP status. -/
inductive ApiResult (α : Type) where
  | ok (payload : Payload α) (cache_status : CacheStatus)
  | error (status : ℕ) (message : String)
deriving DecidableEq

/-- HTTP status of a response (success responses are sent with 200). -/
def statusOf {α : Type} : ApiResult α → ℕ
  | .ok _ _ => 200
  | .error s _ => s

/-- The payload of a success response, if any. -/
def payloadOf {α : Type} : ApiResult α → Option (Payload α)
  | .ok p _ => some p
  | .error _ _ => none

/-- Builds the `response_payload` dict of `handle_api` from the selected
node and the match details (`temp_diff` is `None` on the fallback path). -/
def mkPayload {α : Type} [LinearOrderedField α] [FloorRing α]
    (user_lat user_lon : α) (node : Station α) (distance_km : α)
    (temp_diff : Option α) : Payload α :=
  { lat := user_lat
    long := user_lon
    node_name := nodeName node
    distance_km := round2 distance_km
    temperature := node.temperature
    relative_humidity := node.relative_humidity
    barometric_pressure := node.barometric_pressure
    updated_at := node.updated_at
    checked_with_openmeteo := true
    check_diff_temperature := temp_diff.map round2 }

/-- The `try` block of `handle_api` (everything after coordinate
validation). External collaborators are embedded as their outcomes:
`fetchNodes` is the upstream station-list fetch, `decode` is
`json.loads(raw.decode('utf-8'))`, `fetchMeteo` is
`fetch_openmeteo_current`. Any raised error becomes the 500 response of the
`except` clause; the cache state is threaded explicitly. In the fallback
branch a found node always has a finite distance; the `⊤` case of that
match is unreachable. -/
def api_body {α β : Type} [LinearOrderedField α] [FloorRing α]
    (M : MathPrims α) (user_lat user_lon : α) (current_time : ℚ)
    (fetchNodes : Except String β)
    (decode : β → Except String (List (Station α)))
    (fetchMeteo : Except String (OpenMeteo α)) (st : CacheState β) :
    ApiResult α × CacheState β :=
  match get_nodes_data current_time fetchNodes st with
  | (.error e, st') => (.error 500 e, st')
  | (.ok (raw_nodes, cache_status), st') =>
    match decode raw_nodes with
    | .error e => (.error 500 e, st')
    | .ok nodes =>
      match fetchMeteo with
      | .error e => (.error 500 e, st')
      | .ok openmeteo_current =>
        match find_best_matching_node M user_lat user_lon nodes openmeteo_current with
        | some best =>
          (.ok (mkPayload user_lat user_lon best.node best.distance_km
            (some best.temp_diff)) cache_status, st')
        | none =>
          match find_nearest_node M user_lat user_lon nodes with
          | (none, _) =>
            (.error 404 "Keine Node mit gültigen Koordinaten gefunden.", st')
          | (some node, some distance_km) =>
            (.ok (mkPayload user_lat user_lon node distance_km none) cache_status, st')
          | (some node, none) =>
            (.ok (mkPayload user_lat user_lon node 0 none) cache_status, st')

/-- A Python float as far as `float(str)` can produce one: a finite value
(embedded exactly), an infinity, or a NaN. -/
inductive PFloat where
  | finite (q : ℚ)
  | inf
  | neginf
  | nan
deriving DecidableEq

/-- Numeric value of a list of decimal digit characters. -/
def digitsVal (cs : List Char) : ℕ :=
  cs.foldl (fun n c => 10 * n + (c.toNat - 48)) 0

/-- Unsigned core of `pyFloat`: after sign removal and lowercasing, the
literals `inf`, `infinity` and `nan`, or a decimal numeral with an optional
fractional part. -/
def pyFloatCore (cs : List Char) : Option PFloat :=
  if cs = ['i', 'n', 'f'] ∨ cs = ['i', 'n', 'f', 'i', 'n', 'i', 't', 'y'] then
    some .inf
  else if cs = ['n', 'a', 'n'] then
    some .nan
  else
    match cs.splitOn '.' with
    | [ip] =>
      if ip ≠ [] ∧ ip.all Char.isDigit then some (.finite (digitsVal ip)) else none
    | [ip, fp] =>
      if (ip ≠ [] ∨ fp ≠ []) ∧ ip.all Char.isDigit ∧ fp.all Char.isDigit then
        some (.finite ((digitsVal ip : ℚ) + (digitsVal fp : ℚ) / (10 : ℚ) ^ fp.length))
      else none
    | _ => none

/-- Negation of a parsed float (`float('-nan')` is still NaN). -/
def pyNeg : PFloat → PFloat
  | .finite q => .finite (-q)
  | .inf => .neginf
  | .neginf => .inf
  | .nan => .nan

/-- Model of Python's builtin `float : str -> float` on the shapes of
argument relevant here: an optional sign followed by `inf`/`infinity`/`nan`
(case-insensitive) or a decimal numeral with an optional fractional part;
`none` models a raised `ValueError`. (Surrounding whitespace, exponents and
digit underscores, which Python also accepts, are outside the model.) -/
def pyFloat (s : String) : Option PFloat :=
  let cs := s.toList.map Char.toLower
  match cs with
  | '-' :: rest => (pyFloatCore rest).map pyNeg
  | '+' :: rest => pyFloatCore rest
  | _ => pyFloatCore cs

/-- The query parameters `handle_api` reads: first value of each of the
keys `lat`, `long` and `lon`, when present. -/
structure Params where
  lat : Option String
  long : Option String
  lon : Option String
deriving DecidableEq

/-- `parse_coordinate` from prox.py, applied to the resolved first values
of the primary and fallback keys (`fallbackVal = none` when no fallback key
is given): `Except.error` models the `ValueError` escaping from `float`. -/
def parse_coordinate (value0 fallbackVal : Option String) :
    Except Unit (Option PFloat) :=
  let value := match value0 with
               | some v => some v
               | none => fallbackVal
  match value with
  | none => .ok none
  | some v =>
    match pyFloat v with
    | some f => .ok (some f)
    | none => .error ()

/-- `handle_api` from prox.py, factored at the validation boundary: the
coordinates are parsed and checked exactly as in the source, and on success
control enters the `try` block — `body`, instantiated with `api_body` for
finite coordinates — with the parsed values. The 400 responses leave the
cache untouched and never consult `body`. -/
def handle_api {α β : Type} (qp : Params) (st : CacheState β)
    (body : PFloat → PFloat → ApiResult α × CacheState β) :
    ApiResult α × CacheState β :=
  match parse_coordinate qp.lat none with
  | .error _ =>
    (.error 400 "Ungültige Koordinaten. Bitte numerische Werte für lat und long verwenden.", st)
  | .ok user_lat =>
    match parse_coordinate qp.long qp.lon with
    | .error _ =>
      (.error 400 "Ungültige Koordinaten. Bitte numerische Werte für lat und long verwenden.", st)
    | .ok user_lon =>
      match user_lat, user_lon with
      | some la, some lo => body la lo
      | _, _ =>
        (.error 400 "Fehlende Parameter. Beispiel: /api?lat=52.10&long=10.10", st)

/-- Python's `math.atan2` over the reals, by its case analysis on the
quadrant (`atan2(0, 0) = 0` as in CPython for positive zero). -/
noncomputable def atan2R (y x : ℝ) : ℝ :=
  if 0 < x then Real.arctan (y / x)
  else if x < 0 then
    (if 0 ≤ y then Real.arctan (y / x) + Real.pi else Real.arctan (y / x) - Real.pi)
  else
    (if 0 < y then Real.pi / 2 else if y < 0 then -(Real.pi / 2) else 0)

/-- The math primitives of the source instantiated with the real
functions: this is the program's arithmetic. -/
noncomputable def realPrims : MathPrims ℝ :=
  { radians := fun x => x * Real.pi / 180
    sin := Real.sin
    cos := Real.cos
    sqrt := Real.sqrt
    atan2 := atan2R }

/-- Computable primitives over `ℚ` used to evaluate the generic algorithm
theorems at concrete inputs (the algorithms use the primitives only as
opaque maps, so every generic theorem instantiates here). -/
def testPrims : MathPrims ℚ :=
  { radians := fun x => x
    sin := fun x => x
    cos := fun _ => 0
    sqrt := fun x => x
    atan2 := fun y _ => y }

/-- `minBy` returns `none` exactly on the empty list. -/
theorem minBy_eq_none_iff {β κ : Type} [LinearOrder κ] (key : β → κ)
    (l : List β) : minBy key l = none ↔ l = [] := by
  cases l with
  | nil => simp [minBy]
  | cons b l =>
    rw [minBy]
    cases h : minBy key l <;> simp

/-- `minBy` picks the first element attaining the minimal key: everything
before it has a strictly larger key, everything after a larger-or-equal
one. -/
theorem minBy_decomp {β κ : Type} [LinearOrder κ] (key : β → κ) :
    ∀ (l : List β) (m : β), minBy key l = some m →
      ∃ l₁ l₂, l = l₁ ++ m :: l₂ ∧ (∀ c ∈ l₁, key m < key c) ∧
        (∀ c ∈ l₂, key m ≤ key c)
  | [], m, h => by simp [minBy] at h
  | b :: l, m, h => by
    rw [minBy] at h
    cases hl : minBy key l with
    | none =>
      rw [hl] at h
      obtain rfl : b = m := by simpa using h
      have hnil : l = [] := (minBy_eq_none_iff key l).1 hl
      subst hnil
      exact ⟨[], [], rfl, by simp, by simp⟩
    | some mr =>
      rw [hl] at h
      have h' : (if key mr < key b then mr else b) = m := by simpa using h
      obtain ⟨l₁, l₂, rfl, h₁, h₂⟩ := minBy_decomp key l mr hl
      by_cases hlt : key mr < key b
      · rw [if_pos hlt] at h'
        obtain rfl : mr = m := h'
        refine ⟨b :: l₁, l₂, by simp, ?_, h₂⟩
        intro c hc
        rcases List.mem_cons.1 hc with rfl | hc
        · exact hlt
        · exact h₁ c hc
      · rw [if_neg hlt] at h'
        obtain rfl : b = m := h'
        refine ⟨[], l₁ ++ mr :: l₂, rfl, by simp, ?_⟩
        intro c hc
        have hbm : key b ≤ key mr := le_of_not_lt hlt
        rcases List.mem_append.1 hc with hc | hc
        · exact hbm.trans (le_of_lt (h₁ c hc))
        · rcases List.mem_cons.1 hc with rfl | hc
          · exact hbm
          · exact hbm.trans (h₂ c hc)

/-- Totality of the pair orders: a failed strict comparison flips. -/
theorem lexLeP_of_not_lt {κ : Type} [LinearOrder κ] {p q : κ × κ}
    (h : ¬ lexLtP p q) : lexLeP q p := by
  rw [lexLtP, not_or, not_and_or] at h
  obtain ⟨h1, h2⟩ := h
  rcases lt_trichotomy p.1 q.1 with hlt | heq | hgt
  · exact absurd hlt h1
  · rcases h2 with h2 | h2
    · exact absurd heq h2
    · exact Or.inr ⟨heq.symm, le_of_not_lt h2⟩
  · exact Or.inl hgt

/-- A strict pair comparison is in particular non-strict. -/
theorem lexLeP_of_lt {κ : Type} [LinearOrder κ] {p q : κ × κ}
    (h : lexLtP p q) : lexLeP p q := by
  rcases h with h | ⟨h1, h2⟩
  · exact Or.inl h
  · exact Or.inr ⟨h1, le_of_lt h2⟩

/-- Transitivity of the non-strict pair order. -/
theorem lexLeP_trans {κ : Type} [LinearOrder κ] {p q r : κ × κ}
    (h1 : lexLeP p q) (h2 : lexLeP q r) : lexLeP p r := by
  rcases h1 with h1 | ⟨e1, h1⟩ <;> rcases h2 with h2 | ⟨e2, h2⟩
  · exact Or.inl (h1.trans h2)
  · exact Or.inl (e2 ▸ h1)
  · exact Or.inl (e1 ▸ h2)
  · exact Or.inr ⟨e1.trans e2, h1.trans h2⟩

/-- `minByLex` returns `none` exactly on the empty list. -/
theorem minByLex_eq_none_iff {β κ : Type} [LinearOrder κ] (key : β → κ × κ)
    (l : List β) : minByLex key l = none ↔ l = [] := by
  cases l with
  | nil => simp [minByLex]
  | cons b l =>
    rw [minByLex]
    cases h : minByLex key l <;> simp

/-- `minByLex` picks the first element attaining the lexicographically
minimal key pair. -/
theorem minByLex_decomp {β κ : Type} [LinearOrder κ] (key : β → κ × κ) :
    ∀ (l : List β) (m : β), minByLex key l = some m →
      ∃ l₁ l₂, l = l₁ ++ m :: l₂ ∧ (∀ c ∈ l₁, lexLtP (key m) (key c)) ∧
        (∀ c ∈ l₂, lexLeP (key m) (key c))
  | [], m, h => by simp [minByLex] at h
  | b :: l, m, h => by
    rw [minByLex] at h
    cases hl : minByLex key l with
    | none =>
      rw [hl] at h
      obtain rfl : b = m := by simpa using h
      have hnil : l = [] := (minByLex_eq_none_iff key l).1 hl
      subst hnil
      exact ⟨[], [], rfl, by simp, by simp⟩
    | some mr =>
      rw [hl] at h
      have h' : (if lexLtP (key mr) (key b) then mr else b) = m := by simpa using h
      obtain ⟨l₁, l₂, rfl, h₁, h₂⟩ := minByLex_decomp key l mr hl
      by_cases hlt : lexLtP (key mr) (key b)
      · rw [if_pos hlt] at h'
        obtain rfl : mr = m := h'
        refine ⟨b :: l₁, l₂, by simp, ?_, h₂⟩
        intro c hc
        rcases List.mem_cons.1 hc with rfl | hc
        · exact hlt
        · exact h₁ c hc
      · rw [if_neg hlt] at h'
        obtain rfl : b = m := h'
        refine ⟨[], l₁ ++ mr :: l₂, rfl, by simp, ?_⟩
        intro c hc
        have hbm : lexLeP (key b) (key mr) := lexLeP_of_not_lt hlt
        rcases List.mem_append.1 hc with hc | hc
        · exact lexLeP_trans hbm (lexLeP_of_lt (h₁ c hc))
        · rcases List.mem_cons.1 hc with rfl | hc
          · exact hbm
          · exact lexLeP_trans hbm (h₂ c hc)

/-- `minBy` returns a member of the list. -/
theorem minBy_mem {β κ : Type} [LinearOrder κ] (key : β → κ) {l : List β}
    {m : β} (h : minBy key l = some m) : m ∈ l := by
  obtain ⟨l₁, l₂, rfl, -, -⟩ := minBy_decomp key l m h
  simp

/-- `minByLex` returns a member of the list. -/
theorem minByLex_mem {β κ : Type} [LinearOrder κ] (key : β → κ × κ)
    {l : List β} {m : β} (h : minByLex key l = some m) : m ∈ l := by
  obtain ⟨l₁, l₂, rfl, -, -⟩ := minByLex_decomp key l m h
  simp

/-- The candidacy condition of §3: latitude, longitude, temperature,
relative humidity and barometric pressure all present. -/
def completeStation {α : Type} (s : Station α) : Prop :=
  s.latitude.isSome ∧ s.longitude.isSome ∧ s.temperature.isSome ∧
    s.relative_humidity.isSome ∧ s.barometric_pressure.isSome

/-- Every member of the `candidates` list is a complete-data station. -/
theorem candidatesOf_complete {α : Type} [LinearOrderedField α]
    (M : MathPrims α) (user_lat user_lon : α) (nodes : List (Station α))
    (ref_temp : Option α) {c : Candidate α}
    (hc : c ∈ candidatesOf M user_lat user_lon nodes ref_temp) :
    completeStation c.node := by
  simp only [candidatesOf, List.mem_filterMap] at hc
  obtain ⟨node, hmem, hf⟩ := hc
  simp only [candidateEntry] at hf
  split at hf
  · cases hf
    rename_i hla hlo htm hhu hpr
    exact ⟨by rw [hla]; rfl, by rw [hlo]; rfl, by rw [htm]; rfl,
      by rw [hhu]; rfl, by rw [hpr]; rfl⟩
  · cases hf

/-- Whatever `find_best_matching_node` returns came from the candidates
list. -/
theorem find_best_mem_candidates {α : Type} [LinearOrderedField α]
    (M : MathPrims α) (user_lat user_lon : α) (nodes : List (Station α))
    (om : OpenMeteo α) {c : Candidate α}
    (h : find_best_matching_node M user_lat user_lon nodes om = some c) :
    c ∈ candidatesOf M user_lat user_lon nodes om.temperature_2m := by
  obtain ⟨rt⟩ := om
  cases rt with
  | none =>
    simp only [find_best_matching_node] at h
    by_cases he : (candidatesOf M user_lat user_lon nodes none).isEmpty
    · rw [if_pos he] at h
      cases h
    · rw [if_neg he] at h
      exact minBy_mem _ h
  | some T =>
    simp only [find_best_matching_node] at h
    by_cases he : (candidatesOf M user_lat user_lon nodes (some T)).isEmpty
    · rw [if_pos he] at h
      cases h
    · rw [if_neg he] at h
      by_cases hm : ((candidatesOf M user_lat user_lon nodes (some T)).filter
          (fun c => decide (c.temp_diff ≤ 2))).isEmpty
      · rw [if_pos hm] at h
        exact minByLex_mem _ h
      · rw [if_neg hm] at h
        exact List.mem_of_mem_filter (minBy_mem _ h)

/-- Lifts the candidacy condition through the optional selection result. -/
def optNodeComplete {α : Type} : Option (Candidate α) → Prop
  | none => True
  | some c => completeStation c.node

/-- C3: for every input station list, every user location and every
(possibly null) reference temperature, when the selector returns a station
it has latitude, longitude, temperature, relative humidity and barometric
pressure all present — incomplete stations never enter the comparison. -/
theorem C3_selector_filter_invariant {α : Type} [LinearOrderedField α]
    (M : MathPrims α) (user_lat user_lon : α) (nodes : List (Station α))
    (om : OpenMeteo α) :
    optNodeComplete (find_best_matching_node M user_lat user_lon nodes om) := by
  cases h : find_best_matching_node M user_lat user_lon nodes om with
  | none => trivial
  | some c =>
    exact candidatesOf_complete M user_lat user_lon nodes om.temperature_2m
      (find_best_mem_candidates M user_lat user_lon nodes om h)

/-- C4: with a reference temperature `T` and at least one candidate within
the 2 °C tolerance, the selector returns the first-in-input-order candidate
of minimal distance among the tolerance-matching candidates (every earlier
matching candidate is strictly farther, every later one at least as far),
regardless of how close the non-matching candidates are. -/
theorem C4_matching_nearest {α : Type} [LinearOrderedField α]
    (M : MathPrims α) (user_lat user_lon : α) (nodes : List (Station α))
    (om : OpenMeteo α) (T : α) (hT : om.temperature_2m = some T)
    (hm : (candidatesOf M user_lat user_lon nodes (some T)).filter
      (fun c => decide (c.temp_diff ≤ 2)) ≠ []) :
    ∃ r l₁ l₂,
      find_best_matching_node M user_lat user_lon nodes om = some r ∧
      (candidatesOf M user_lat user_lon nodes (some T)).filter
        (fun c => decide (c.temp_diff ≤ 2)) = l₁ ++ r :: l₂ ∧
      r.temp_diff ≤ 2 ∧
      (∀ c ∈ l₁, r.distance_km < c.distance_km) ∧
      (∀ c ∈ l₂, r.distance_km ≤ c.distance_km) := by
  obtain ⟨rt⟩ := om
  simp only at hT
  subst hT
  have hcand : candidatesOf M user_lat user_lon nodes (some T) ≠ [] := by
    intro hnil
    exact hm (by rw [hnil]; rfl)
  simp only [find_best_matching_node]
  rw [if_neg (by simpa [List.isEmpty_iff] using hcand)]
  rw [if_neg (by simpa [List.isEmpty_iff] using hm)]
  cases hmin : minBy (fun c => c.distance_km)
      ((candidatesOf M user_lat user_lon nodes (some T)).filter
        (fun c => decide (c.temp_diff ≤ 2))) with
  | none => exact absurd ((minBy_eq_none_iff _ _).1 hmin) hm
  | some r =>
    obtain ⟨l₁, l₂, heq, h₁, h₂⟩ := minBy_decomp _ _ r hmin
    have hrmem : r ∈ (candidatesOf M user_lat user_lon nodes (some T)).filter
        (fun c => decide (c.temp_diff ≤ 2)) := by
      rw [heq]; simp
    exact ⟨r, l₁, l₂, rfl, heq,
      of_decide_eq_true (List.mem_filter.1 hrmem).2, h₁, h₂⟩

/-- C5: with a reference temperature `T` and no candidate within the 2 °C
tolerance, the selector returns the first-in-input-order candidate that is
lexicographically minimal for the pair (temperature deviation, distance). -/
theorem C5_lexicographic_fallback {α : Type} [LinearOrderedField α]
    (M : MathPrims α) (user_lat user_lon : α) (nodes : List (Station α))
    (om : OpenMeteo α) (T : α) (hT : om.temperature_2m = some T)
    (hcand : candidatesOf M user_lat user_lon nodes (some T) ≠ [])
    (hm : (candidatesOf M user_lat user_lon nodes (some T)).filter
      (fun c => decide (c.temp_diff ≤ 2)) = []) :
    ∃ r l₁ l₂,
      find_best_matching_node M user_lat user_lon nodes om = some r ∧
      candidatesOf M user_lat user_lon nodes (some T) = l₁ ++ r :: l₂ ∧
      (∀ c ∈ l₁, lexLtP (r.temp_diff, r.distance_km) (c.temp_diff, c.distance_km)) ∧
      (∀ c ∈ l₂, lexLeP (r.temp_diff, r.distance_km) (c.temp_diff, c.distance_km)) := by
  obtain ⟨rt⟩ := om
  simp only at hT
  subst hT
  simp only [find_best_matching_node]
  rw [if_neg (by simpa [List.isEmpty_iff] using hcand)]
  rw [if_pos (by simpa [List.isEmpty_iff] using hm)]
  cases hmin : minByLex (fun c => (c.temp_diff, c.distance_km))
      (candidatesOf M user_lat user_lon nodes (some T)) with
  | none => exact absurd ((minByLex_eq_none_iff _ _).1 hmin) hcand
  | some r =>
    obtain ⟨l₁, l₂, heq, h₁, h₂⟩ := minByLex_decomp _ _ r hmin
    exact ⟨r, l₁, l₂, rfl, heq, h₁, h₂⟩

/-- C6: with no reference temperature and at least one candidate, the
selector returns the first-in-input-order candidate of minimal distance
among the complete-data candidates. -/
theorem C6_null_reference_nearest {α : Type} [LinearOrderedField α]
    (M : MathPrims α) (user_lat user_lon : α) (nodes : List (Station α))
    (om : OpenMeteo α) (hT : om.temperature_2m = none)
    (hcand : candidatesOf M user_lat user_lon nodes none ≠ []) :
    ∃ r l₁ l₂,
      find_best_matching_node M user_lat user_lon nodes om = some r ∧
      candidatesOf M user_lat user_lon nodes none = l₁ ++ r :: l₂ ∧
      (∀ c ∈ l₁, r.distance_km < c.distance_km) ∧
      (∀ c ∈ l₂, r.distance_km ≤ c.distance_km) := by
  obtain ⟨rt⟩ := om
  simp only at hT
  subst hT
  simp only [find_best_matching_node]
  rw [if_neg (by simpa [List.isEmpty_iff] using hcand)]
  cases hmin : minBy (fun c => c.distance_km)
      (candidatesOf M user_lat user_lon nodes none) with
  | none => exact absurd ((minBy_eq_none_iff _ _).1 hmin) hcand
  | some r =>
    obtain ⟨l₁, l₂, heq, h₁, h₂⟩ := minBy_decomp _ _ r hmin
    exact ⟨r, l₁, l₂, rfl, heq, h₁, h₂⟩

/-- A complete-data station over `ℚ` used to evaluate the generic selector
theorems at concrete inputs. -/
def wStation (nm : String) (la lo t : ℚ) : Station ℚ :=
  { long_name := some nm
    latitude := some la
    longitude := some lo
    temperature := some t
    relative_humidity := some 50
    barometric_pressure := some 1000 }

/-- Witness for C4 at a concrete input containing a strictly closer
non-matching candidate: station A is nearer but 5 °C off, station B is
farther but within tolerance, and B's branch is taken. -/
theorem C4_matching_nearest_witness :
    (candidatesOf testPrims 0 0 [wStation "A" 2 0 15, wStation "B" 4 0 11]
      (some 10)).filter (fun c => decide (c.temp_diff ≤ 2)) ≠ [] ∧
    (∃ r l₁ l₂,
      find_best_matching_node testPrims 0 0
        [wStation "A" 2 0 15, wStation "B" 4 0 11] ⟨some 10⟩ = some r ∧
      (candidatesOf testPrims 0 0 [wStation "A" 2 0 15, wStation "B" 4 0 11]
        (some 10)).filter (fun c => decide (c.temp_diff ≤ 2)) = l₁ ++ r :: l₂ ∧
      r.temp_diff ≤ 2 ∧
      (∀ c ∈ l₁, r.distance_km < c.distance_km) ∧
      (∀ c ∈ l₂, r.distance_km ≤ c.distance_km)) :=
  ⟨by norm_num [candidatesOf, candidateEntry, wStation, calculate_distance, testPrims,
      List.filterMap_cons, List.filter],
    C4_matching_nearest testPrims 0 0 [wStation "A" 2 0 15, wStation "B" 4 0 11]
      ⟨some 10⟩ 10 rfl
      (by norm_num [candidatesOf, candidateEntry, wStation, calculate_distance, testPrims,
        List.filterMap_cons, List.filter])⟩

/-- Witness for C5 at the spec's example shape: both candidates deviate by
3 °C, the farther one comes first in input order, and the nearer one wins
the lexicographic comparison. -/
theorem C5_lexicographic_fallback_witness :
    candidatesOf testPrims 0 0 [wStation "A" 4 0 13, wStation "B" 2 0 13]
      (some 10) ≠ [] ∧
    (candidatesOf testPrims 0 0 [wStation "A" 4 0 13, wStation "B" 2 0 13]
      (some 10)).filter (fun c => decide (c.temp_diff ≤ 2)) = [] ∧
    (∃ r l₁ l₂,
      find_best_matching_node testPrims 0 0
        [wStation "A" 4 0 13, wStation "B" 2 0 13] ⟨some 10⟩ = some r ∧
      candidatesOf testPrims 0 0 [wStation "A" 4 0 13, wStation "B" 2 0 13]
        (some 10) = l₁ ++ r :: l₂ ∧
      (∀ c ∈ l₁, lexLtP (r.temp_diff, r.distance_km) (c.temp_diff, c.distance_km)) ∧
      (∀ c ∈ l₂, lexLeP (r.temp_diff, r.distance_km) (c.temp_diff, c.distance_km))) :=
  ⟨by norm_num [candidatesOf, candidateEntry, wStation, calculate_distance, testPrims,
      List.filterMap_cons, List.cons_ne_nil],
    by norm_num [candidatesOf, candidateEntry, wStation, calculate_distance, testPrims,
      List.filterMap_cons, List.filter],
    C5_lexicographic_fallback testPrims 0 0
      [wStation "A" 4 0 13, wStation "B" 2 0 13] ⟨some 10⟩ 10 rfl
      (by norm_num [candidatesOf, candidateEntry, wStation, calculate_distance, testPrims,
        List.filterMap_cons, List.cons_ne_nil])
      (by norm_num [candidatesOf, candidateEntry, wStation, calculate_distance, testPrims,
        List.filterMap_cons, List.filter])⟩

/-- Witness for C6 at a concrete input: no reference temperature, two
complete-data stations. -/
theorem C6_null_reference_nearest_witness :
    candidatesOf testPrims 0 0 [wStation "A" 4 0 13, wStation "B" 2 0 13]
      none ≠ [] ∧
    (∃ r l₁ l₂,
      find_best_matching_node testPrims 0 0
        [wStation "A" 4 0 13, wStation "B" 2 0 13] ⟨none⟩ = some r ∧
      candidatesOf testPrims 0 0 [wStation "A" 4 0 13, wStation "B" 2 0 13]
        none = l₁ ++ r :: l₂ ∧
      (∀ c ∈ l₁, r.distance_km < c.distance_km) ∧
      (∀ c ∈ l₂, r.distance_km ≤ c.distance_km)) :=
  ⟨by norm_num [candidatesOf, candidateEntry, wStation, calculate_distance, testPrims,
      List.filterMap_cons, List.cons_ne_nil],
    C6_null_reference_nearest testPrims 0 0
      [wStation "A" 4 0 13, wStation "B" 2 0 13] ⟨none⟩ rfl
      (by norm_num [candidatesOf, candidateEntry, wStation, calculate_distance, testPrims,
        List.filterMap_cons, List.cons_ne_nil])⟩

/-- C7: from the empty cache the first call is a MISS that stores the
fresh list with its fetch time; a second call strictly inside the TTL
window is a HIT that returns the stored data and leaves the entry
unchanged; a call at or past the TTL is a MISS that replaces the entry
wholesale with the fresh list and the new timestamp. -/
theorem C7_cache_ttl {β : Type} (now₁ now₂ : ℚ) (b₁ b₂ : β) :
    get_nodes_data now₁ (.ok b₁) initialCache =
      (.ok (b₁, .MISS), ⟨some b₁, now₁⟩) ∧
    (now₂ - now₁ < CACHE_DURATION →
      get_nodes_data now₂ (.ok b₂) ⟨some b₁, now₁⟩ =
        (.ok (b₁, .HIT), ⟨some b₁, now₁⟩)) ∧
    (CACHE_DURATION ≤ now₂ - now₁ →
      get_nodes_data now₂ (.ok b₂) ⟨some b₁, now₁⟩ =
        (.ok (b₂, .MISS), ⟨some b₂, now₂⟩)) := by
  refine ⟨?_, ?_, ?_⟩
  · rw [get_nodes_data, dif_neg]
    rintro ⟨h, -⟩
    simp [initialCache] at h
  · intro h
    rw [get_nodes_data, dif_pos ⟨rfl, h⟩]
    rfl
  · intro h
    rw [get_nodes_data, dif_neg]
    rintro ⟨-, hlt⟩
    exact absurd hlt (not_lt.2 h)

/-- Witness for C7: first call from empty cache, a HIT 100 s later, and a
MISS 400 s later that replaces the entry. -/
theorem C7_cache_ttl_witness :
    get_nodes_data 0 (.ok (1 : ℕ)) initialCache =
      (.ok (1, .MISS), ⟨some 1, 0⟩) ∧
    get_nodes_data 100 (.ok (2 : ℕ)) ⟨some 1, 0⟩ =
      (.ok (1, .HIT), ⟨some 1, 0⟩) ∧
    get_nodes_data 400 (.ok (2 : ℕ)) ⟨some 1, 0⟩ =
      (.ok (2, .MISS), ⟨some 2, 400⟩) :=
  ⟨(C7_cache_ttl 0 100 1 2).1,
    (C7_cache_ttl 0 100 1 2).2.1 (by norm_num [CACHE_DURATION]),
    (C7_cache_ttl 0 400 1 2).2.2 (by norm_num [CACHE_DURATION])⟩

/-- C8: when the cache cannot serve (empty or expired) and the upstream
fetch fails, `get_nodes_data` propagates the error and returns the cache
exactly as it was, and the `/api` request fails with a 500 response that
carries the error message, again with the cache unchanged. -/
theorem C8_fetch_failure {α β : Type} [LinearOrderedField α] [FloorRing α]
    (M : MathPrims α) (user_lat user_lon : α) (now : ℚ) (e : String)
    (decode : β → Except String (List (Station α)))
    (fetchMeteo : Except String (OpenMeteo α)) (st : CacheState β)
    (hmiss : ¬(st.data.isSome ∧ now - st.timestamp < CACHE_DURATION)) :
    get_nodes_data now (.error e) st = (.error e, st) ∧
    api_body M user_lat user_lon now (.error e) decode fetchMeteo st =
      (.error 500 e, st) := by
  have h1 : get_nodes_data now (Except.error e) st = (.error e, st) := by
    rw [get_nodes_data, dif_neg hmiss]
  refine ⟨h1, ?_⟩
  simp only [api_body, h1]

/-- Witness for C8: empty cache, failing fetch. -/
theorem C8_fetch_failure_witness :
    ¬((initialCache : CacheState ℕ).data.isSome ∧
        (0 : ℚ) - (initialCache : CacheState ℕ).timestamp < CACHE_DURATION) ∧
    get_nodes_data 0 (.error "boom") (initialCache : CacheState ℕ) =
      (.error "boom", initialCache) ∧
    api_body testPrims 0 0 0 (.error "boom") (fun _ : ℕ => .ok [])
      (.ok ⟨none⟩) initialCache = (.error 500 "boom", initialCache) :=
  ⟨by simp [initialCache],
    (C8_fetch_failure testPrims 0 0 0 "boom" (fun _ : ℕ => .ok [])
      (.ok ⟨none⟩) initialCache (by simp [initialCache])).1,
    (C8_fetch_failure testPrims 0 0 0 "boom" (fun _ : ℕ => .ok [])
      (.ok ⟨none⟩) initialCache (by simp [initialCache])).2⟩

/-- C9: the program's distance function (haversine with the real
trigonometric functions) is symmetric in its two points and returns zero
for identical points. -/
theorem C9_distance_symmetric_and_zero :
    (∀ lat1 lon1 lat2 lon2 : ℝ,
      calculate_distance realPrims lat1 lon1 lat2 lon2 =
        calculate_distance realPrims lat2 lon2 lat1 lon1) ∧
    (∀ la lo : ℝ, calculate_distance realPrims la lo la lo = 0) := by
  have key : ∀ u v : ℝ,
      Real.sin ((u - v) * Real.pi / 180 / 2) ^ 2 =
        Real.sin ((v - u) * Real.pi / 180 / 2) ^ 2 := by
    intro u v
    have h : (u - v) * Real.pi / 180 / 2 = -((v - u) * Real.pi / 180 / 2) := by
      ring
    rw [h, Real.sin_neg]
    ring
  constructor
  · intro lat1 lon1 lat2 lon2
    simp only [calculate_distance, realPrims]
    rw [key lat2 lat1, key lon2 lon1]
    ring_nf
  · intro la lo
    norm_num [calculate_distance, realPrims, atan2R, Real.sin_zero,
      Real.sqrt_zero, Real.sqrt_one, Real.arctan_zero]

/-- Python `round(0.0, 2) = 0.0`. -/
theorem round2_zero {α : Type} [LinearOrderedField α] [FloorRing α] :
    round2 (0 : α) = 0 := by
  norm_num [round2, roundHalfEven]

/-- The `check_diff.temperature` value of a response, when the response is
a success payload. -/
def checkDiffTemperature {α : Type} : ApiResult α → Option (Option α)
  | .ok p _ => some p.check_diff_temperature
  | .error _ _ => none

/-- A station without full coordinates contributes no candidate. -/
theorem candidateEntry_of_no_coords {α : Type} [LinearOrderedField α]
    (M : MathPrims α) (user_lat user_lon : α) (ref_temp : Option α)
    (node : Station α) (hn : node.latitude = none ∨ node.longitude = none) :
    candidateEntry M user_lat user_lon ref_temp node = none := by
  rcases hn with hn | hn
  · simp [candidateEntry, hn]
  · cases hla : node.latitude with
    | none => simp [candidateEntry, hla]
    | some la => simp [candidateEntry, hla, hn]

/-- When no station has both coordinates, the candidate list is empty. -/
theorem candidatesOf_of_no_coords {α : Type} [LinearOrderedField α]
    (M : MathPrims α) (user_lat user_lon : α) (ref_temp : Option α) :
    ∀ (nodes : List (Station α)),
      (∀ node ∈ nodes, node.latitude = none ∨ node.longitude = none) →
      candidatesOf M user_lat user_lon nodes ref_temp = []
  | [], _ => rfl
  | n :: rest, h => by
    have h1 := candidateEntry_of_no_coords M user_lat user_lon ref_temp n
      (h n (List.mem_cons_self n rest))
    have h2 := candidatesOf_of_no_coords M user_lat user_lon ref_temp rest
      (fun x hx => h x (List.mem_cons_of_mem n hx))
    simp only [candidatesOf, List.filterMap_cons, h1]
    exact h2

/-- When no station has both coordinates, the nearest-node loop keeps its
accumulators. -/
theorem find_nearest_go_of_no_coords {α : Type} [LinearOrderedField α]
    (M : MathPrims α) (user_lat user_lon : α) :
    ∀ (nodes : List (Station α)),
      (∀ node ∈ nodes, node.latitude = none ∨ node.longitude = none) →
      ∀ (acc : Option (Station α)) (d : WithTop α),
        find_nearest_go M user_lat user_lon nodes acc d = (acc, d)
  | [], _, acc, d => rfl
  | n :: rest, h, acc, d => by
    have hn := h n (List.mem_cons_self n rest)
    have ih := find_nearest_go_of_no_coords M user_lat user_lon rest
      (fun x hx => h x (List.mem_cons_of_mem n hx))
    rcases hn with hn | hn
    · simp only [find_nearest_go, hn]
      exact ih acc d
    · cases hla : n.latitude with
      | none =>
        simp only [find_nearest_go, hla]
        exact ih acc d
      | some la =>
        simp only [find_nearest_go, hla, hn]
        exact ih acc d

/-- With an empty candidate list the selector returns nothing. -/
theorem find_best_eq_none_of_no_candidates {α : Type} [LinearOrderedField α]
    (M : MathPrims α) (user_lat user_lon : α) (nodes : List (Station α))
    (om : OpenMeteo α)
    (h : candidatesOf M user_lat user_lon nodes om.temperature_2m = []) :
    find_best_matching_node M user_lat user_lon nodes om = none := by
  simp [find_best_matching_node, h]

/-- C1 (amended): given successful fetches, `/api` answers 404 only when no
station has both coordinates; when the selector finds no complete-data
candidate but some station has coordinates, the distance-only fallback
serves that station with HTTP 200 and a null `check_diff.temperature`. -/
theorem C1_amended_404_only_without_coords {α β : Type} [LinearOrderedField α]
    [FloorRing α] (M : MathPrims α) (user_lat user_lon : α) (now : ℚ)
    (fetchNodes : Except String β)
    (decode : β → Except String (List (Station α)))
    (fetchMeteo : Except String (OpenMeteo α)) (st st' : CacheState β)
    (raw : β) (cs : CacheStatus) (nodes : List (Station α)) (om : OpenMeteo α)
    (hG : get_nodes_data now fetchNodes st = (.ok (raw, cs), st'))
    (hD : decode raw = .ok nodes) (hM : fetchMeteo = .ok om) :
    ((∀ node ∈ nodes, node.latitude = none ∨ node.longitude = none) →
      api_body M user_lat user_lon now fetchNodes decode fetchMeteo st =
        (.error 404 "Keine Node mit gültigen Koordinaten gefunden.", st')) ∧
    (∀ n d, find_best_matching_node M user_lat user_lon nodes om = none →
      find_nearest_node M user_lat user_lon nodes = (some n, some d) →
      api_body M user_lat user_lon now fetchNodes decode fetchMeteo st =
        (.ok (mkPayload user_lat user_lon n d none) cs, st')) := by
  constructor
  · intro h
    have hc : candidatesOf M user_lat user_lon nodes om.temperature_2m = [] :=
      candidatesOf_of_no_coords M user_lat user_lon om.temperature_2m nodes h
    have hb : find_best_matching_node M user_lat user_lon nodes om = none :=
      find_best_eq_none_of_no_candidates M user_lat user_lon nodes om hc
    have hnear : find_nearest_node M user_lat user_lon nodes =
        ((none : Option (Station α)), (⊤ : WithTop α)) :=
      find_nearest_go_of_no_coords M user_lat user_lon nodes h none ⊤
    simp only [api_body, hG, hD, hM, hb, hnear]
  · intro n d hb hnear
    simp only [api_body, hG, hD, hM, hb, hnear]

/-- A station with no fields at all, used for the 404 case. -/
def stN : Station ℝ := { long_name := some "N" }

/-- Witness for C1 (amended): one station without coordinates, successful
fetches, and a 404 response. -/
theorem C1_amended_witness :
    (∀ node ∈ [stN], node.latitude = none ∨ node.longitude = none) ∧
    api_body realPrims 1 1 0 (.ok [stN]) Except.ok (.ok ⟨some 10⟩)
        initialCache =
      (.error 404 "Keine Node mit gültigen Koordinaten gefunden.",
        ⟨some [stN], 0⟩) :=
  ⟨by simp [stN],
    (C1_amended_404_only_without_coords realPrims 1 1 0 (.ok [stN]) Except.ok
      (.ok ⟨some 10⟩) initialCache ⟨some [stN], 0⟩ [stN] .MISS [stN]
      ⟨some 10⟩
      (by rw [get_nodes_data, dif_neg]; rintro ⟨h, -⟩; simp [initialCache] at h)
      rfl rfl).1 (by simp [stN])⟩

/-- A station with coordinates but no temperature reading. -/
def cexStation : Station ℝ :=
  { long_name := some "S"
    latitude := some 0
    longitude := some 0
    relative_humidity := some 50
    barometric_pressure := some 1000 }

/-- Counterexample to C1 as stated: the station list contains no candidate
(the only station has coordinates but a null temperature), yet `/api`
returns that station with HTTP 200 — not a 404 error. -/
theorem C1_counterexample :
    statusOf (api_body realPrims 1 1 0 (.ok [cexStation]) Except.ok
        (.ok ⟨some 10⟩) initialCache).1 = 200 ∧
    (payloadOf (api_body realPrims 1 1 0 (.ok [cexStation]) Except.ok
        (.ok ⟨some 10⟩) initialCache).1).map (fun p => p.node_name) =
      some "S" ∧
    (payloadOf (api_body realPrims 1 1 0 (.ok [cexStation]) Except.ok
        (.ok ⟨some 10⟩) initialCache).1).map (fun p => p.temperature) =
      some none ∧
    checkDiffTemperature (api_body realPrims 1 1 0 (.ok [cexStation])
        Except.ok (.ok ⟨some 10⟩) initialCache).1 = some none := by
  have h1 : get_nodes_data 0 (.ok [cexStation]) initialCache =
      (.ok ([cexStation], .MISS), ⟨some [cexStation], 0⟩) := by
    rw [get_nodes_data, dif_neg]
    rintro ⟨h, -⟩
    simp [initialCache] at h
  have h2 : find_best_matching_node realPrims 1 1 [cexStation] ⟨some 10⟩ =
      none := rfl
  have h3 : find_nearest_node realPrims 1 1 [cexStation] =
      (some cexStation, some (calculate_distance realPrims 1 1 0 0)) := by
    show find_nearest_go realPrims 1 1 [cexStation] none ⊤ = _
    rw [find_nearest_go]
    simp only [cexStation]
    rw [if_pos (WithTop.coe_lt_top _)]
    rfl
  simp only [api_body, h1, h2, h3]
  refine ⟨rfl, ?_, ?_, ?_⟩ <;>
    simp [statusOf, payloadOf, checkDiffTemperature, mkPayload, nodeName,
      strTruthy, cexStation]

/-- With no reference temperature every candidate's deviation is the
stand-in `0.0`. -/
theorem candidatesOf_temp_diff_zero {α : Type} [LinearOrderedField α]
    (M : MathPrims α) (user_lat user_lon : α) (nodes : List (Station α))
    {c : Candidate α} (hc : c ∈ candidatesOf M user_lat user_lon nodes none) :
    c.temp_diff = 0 := by
  simp only [candidatesOf, List.mem_filterMap] at hc
  obtain ⟨node, -, hf⟩ := hc
  simp only [candidateEntry] at hf
  split at hf
  · cases hf
    rfl
  · cases hf

/-- C2 (amended): in the delivered payload `check_diff.temperature` is
non-null whenever the selector found a complete-data candidate — even when
the reference temperature was null, in which case the reported value is the
stand-in deviation `0.0` — and is null exactly on the distance-only
fallback path, regardless of the reference temperature. -/
theorem C2_amended_null_diff_only_on_fallback {α β : Type}
    [LinearOrderedField α] [FloorRing α] (M : MathPrims α)
    (user_lat user_lon : α) (now : ℚ) (fetchNodes : Except String β)
    (decode : β → Except String (List (Station α)))
    (fetchMeteo : Except String (OpenMeteo α)) (st st' : CacheState β)
    (raw : β) (cs : CacheStatus) (nodes : List (Station α)) (om : OpenMeteo α)
    (hG : get_nodes_data now fetchNodes st = (.ok (raw, cs), st'))
    (hD : decode raw = .ok nodes) (hM : fetchMeteo = .ok om) :
    (∀ best, find_best_matching_node M user_lat user_lon nodes om = some best →
      checkDiffTemperature
          (api_body M user_lat user_lon now fetchNodes decode fetchMeteo st).1 =
        some (some (round2 best.temp_diff))) ∧
    (∀ n d, find_best_matching_node M user_lat user_lon nodes om = none →
      find_nearest_node M user_lat user_lon nodes = (some n, some d) →
      checkDiffTemperature
          (api_body M user_lat user_lon now fetchNodes decode fetchMeteo st).1 =
        some none) ∧
    (om.temperature_2m = none →
      ∀ best, find_best_matching_node M user_lat user_lon nodes om = some best →
      best.temp_diff = 0) := by
  refine ⟨?_, ?_, ?_⟩
  · intro best hb
    simp only [api_body, hG, hD, hM, hb]
    simp [checkDiffTemperature, mkPayload]
  · intro n d hb hnear
    simp only [api_body, hG, hD, hM, hb, hnear]
    simp [checkDiffTemperature, mkPayload]
  · intro hT best hb
    have hmem := find_best_mem_candidates M user_lat user_lon nodes om hb
    rw [hT] at hmem
    exact candidatesOf_temp_diff_zero M user_lat user_lon nodes hmem

/-- A complete-data station over `ℝ`. -/
def stC : Station ℝ :=
  { long_name := some "C"
    latitude := some 0
    longitude := some 0
    temperature := some 15
    relative_humidity := some 50
    barometric_pressure := some 1000 }

set_option maxHeartbeats 1000000 in
/-- Witness for C2 (amended): with a null reference temperature and one
complete-data candidate, the payload reports the rounded stand-in deviation
and the selected candidate's stored deviation is `0.0`. -/
theorem C2_amended_witness :
    find_best_matching_node realPrims 1 1 [stC] ⟨none⟩ =
      some ⟨stC, calculate_distance realPrims 1 1 0 0, 0⟩ ∧
    checkDiffTemperature (api_body realPrims 1 1 0 (.ok [stC]) Except.ok
        (.ok ⟨none⟩) initialCache).1 =
      some (some (round2 (0 : ℝ))) ∧
    (⟨stC, calculate_distance realPrims 1 1 0 0, 0⟩ : Candidate ℝ).temp_diff
      = 0 :=
  ⟨rfl,
    (C2_amended_null_diff_only_on_fallback realPrims 1 1 0 (.ok [stC])
      Except.ok (.ok ⟨none⟩) initialCache ⟨some [stC], 0⟩ [stC] .MISS [stC]
      ⟨none⟩
      (by rw [get_nodes_data, dif_neg]; rintro ⟨h, -⟩; simp [initialCache] at h)
      rfl rfl).1 _ rfl,
    (C2_amended_null_diff_only_on_fallback realPrims 1 1 0 (.ok [stC])
      Except.ok (.ok ⟨none⟩) initialCache ⟨some [stC], 0⟩ [stC] .MISS [stC]
      ⟨none⟩
      (by rw [get_nodes_data, dif_neg]; rintro ⟨h, -⟩; simp [initialCache] at h)
      rfl rfl).2.2 rfl _ rfl⟩

/-- Counterexample to C2 as stated: the reference temperature is null and a
complete-data candidate exists, yet the payload reports
`check_diff.temperature` as `0.0`, not as null. -/
theorem C2_counterexample :
    (⟨none⟩ : OpenMeteo ℝ).temperature_2m = none ∧
    checkDiffTemperature (api_body realPrims 1 1 0 (.ok [stC]) Except.ok
        (.ok ⟨none⟩) initialCache).1 = some (some 0) := by
  have h1 : get_nodes_data 0 (.ok [stC]) initialCache =
      (.ok ([stC], .MISS), ⟨some [stC], 0⟩) := by
    rw [get_nodes_data, dif_neg]
    rintro ⟨h, -⟩
    simp [initialCache] at h
  have h2 : find_best_matching_node realPrims 1 1 [stC] ⟨none⟩ =
      some ⟨stC, calculate_distance realPrims 1 1 0 0, 0⟩ := rfl
  refine ⟨rfl, ?_⟩
  simp only [api_body, h1, h2]
  simp [checkDiffTemperature, mkPayload, round2_zero]

/-- C10 (amended): `/api` answers 400 — without touching the cache and
without entering the fetch-and-select body — exactly on the validation
failures the source checks for: a missing `lat`, a missing `long`/`lon`, or
a value on which `float()` raises `ValueError`. (A value such as `"inf"` or
`"nan"` parses as a non-finite float and is accepted, see the
counterexample.) -/
theorem C10_amended_400_on_missing_or_valueerror {α β : Type} (qp : Params)
    (st : CacheState β) (body : PFloat → PFloat → ApiResult α × CacheState β)
    (h : parse_coordinate qp.lat none = .error () ∨
      parse_coordinate qp.long qp.lon = .error () ∨
      parse_coordinate qp.lat none = .ok none ∨
      parse_coordinate qp.long qp.lon = .ok none) :
    statusOf (handle_api qp st body).1 = 400 ∧
    (handle_api qp st body).2 = st := by
  cases hla : parse_coordinate qp.lat none with
  | error e => simp [handle_api, hla, statusOf]
  | ok la =>
    cases hlo : parse_coordinate qp.long qp.lon with
    | error e => simp [handle_api, hla, hlo, statusOf]
    | ok lo =>
      rcases h with h | h | h | h
      · rw [hla] at h
        simp at h
      · rw [hlo] at h
        simp at h
      · rw [hla] at h
        simp only [Except.ok.injEq] at h
        subst h
        simp [handle_api, hla, hlo, statusOf]
      · rw [hlo] at h
        simp only [Except.ok.injEq] at h
        subst h
        cases la <;> simp [handle_api, hla, hlo, statusOf]

/-- A constant body used to evaluate `handle_api` on validation failures. -/
def wBody : PFloat → PFloat → ApiResult ℚ × CacheState ℕ :=
  fun _ _ => (.error 999 "unreachable", initialCache)

/-- Witness for C10 (amended): a request with no `lat` parameter gets a 400
response and the cache is untouched. -/
theorem C10_amended_witness :
    parse_coordinate (Params.mk none (some "1") none).lat none = .ok none ∧
    statusOf (handle_api ⟨none, some "1", none⟩ (⟨some 3, 7⟩ : CacheState ℕ)
        wBody).1 = 400 ∧
    (handle_api ⟨none, some "1", none⟩ (⟨some 3, 7⟩ : CacheState ℕ) wBody).2 =
      ⟨some 3, 7⟩ :=
  ⟨rfl,
    (C10_amended_400_on_missing_or_valueerror ⟨none, some "1", none⟩
      ⟨some 3, 7⟩ wBody (Or.inr (Or.inr (Or.inl rfl)))).1,
    (C10_amended_400_on_missing_or_valueerror ⟨none, some "1", none⟩
      ⟨some 3, 7⟩ wBody (Or.inr (Or.inr (Or.inl rfl)))).2⟩

/-- A fixed payload for the C10 counterexample body. -/
def cexPayload : Payload ℚ :=
  { lat := 0
    long := 0
    node_name := "X"
    distance_km := 0
    temperature := none
    relative_humidity := none
    barometric_pressure := none
    updated_at := none
    checked_with_openmeteo := true
    check_diff_temperature := none }

/-- The `try`-block outcome used in the C10 counterexample (a concrete
stand-in for the fetch-and-select body, which in the source never produces
a 400 response). -/
def cexBody : PFloat → PFloat → ApiResult ℚ × CacheState ℕ :=
  fun _ _ => (.ok cexPayload .MISS, initialCache)

/-- Counterexample to C10 as stated: `lat=inf` does not parse as a finite
number, yet validation accepts it — `float('inf')` succeeds — and the
request proceeds into the fetch-and-select body with the non-finite value
instead of being answered with a 400 error. -/
theorem C10_counterexample :
    pyFloat "inf" = some PFloat.inf ∧
    handle_api ⟨some "inf", some "1", none⟩ (initialCache : CacheState ℕ)
        cexBody = cexBody PFloat.inf (PFloat.finite 1) ∧
    statusOf (handle_api ⟨some "inf", some "1", none⟩
        (initialCache : CacheState ℕ) cexBody).1 = 200 :=
  ⟨rfl, rfl, rfl⟩
